import Mathlib

/-!
Shallow embedding of `auto_build.py`, the build-orchestration script of this
repository, together with proofs about its flag parsing, module resolution,
clean phase, scheduling, and failure coordination.

The script is modelled as pure Lean functions.  External effects are
abstracted by a `World` record: an oracle telling whether a given external
command (run in a given directory) succeeds, whether a directory exists, and
which subdirectories `Path("modules").glob("*/")` yields.  Console output and
process spawning are recorded as an explicit list of `Event`s.

Concurrency is modelled deterministically, encoding the Python runtime
semantics on which the control flow of the script depends:
* `sys.exit(1)` raises `SystemExit`; raised inside a worker or background
  thread it terminates only that thread.  `threading` silently ignores an
  uncaught `SystemExit` in a thread, so a `die` inside the sequential
  thread does not stop the process.
* A `concurrent.futures` worker stores any `BaseException` (including
  `SystemExit`) in the future; `fut.result()` re-raises it in the main
  thread, where `except Exception:` does NOT catch `SystemExit`, so the
  failure handler of the script is bypassed and `SystemExit` escapes.
* Leaving the `with ThreadPoolExecutor(...)` block calls
  `shutdown(wait=True)`, which runs and waits for every submitted build
  (queued items are not cancelled), even while `SystemExit` propagates.
* The sequential thread is non-daemon, so interpreter shutdown joins it
  before the process exits, even when the explicit `seq_thread.join()`
  line is skipped by a propagating `SystemExit`.
-/

set_option maxRecDepth 8000

namespace AutoBuild

/-- Characters matched by the class `[A-Z0-9_]` in the regular expression
`-D([A-Z0-9_]+)` used by `get_flags` (auto_build.py line 64). -/
def isFlagChar (c : Char) : Bool :=
  decide (('A' ≤ c ∧ c ≤ 'Z') ∨ ('0' ≤ c ∧ c ≤ '9') ∨ c = '_')

/-- Left-to-right non-overlapping scan of `re.findall(r"-D([A-Z0-9_]+)", s)`:
at each position try to match `-D` followed by a maximal nonempty run of
flag characters; on success emit the captured run and resume after the
match, otherwise advance one character (a failed `-D` attempt resumes at
the following `D`, which itself cannot start a match).  The first argument
is fuel, always passed as the length of the remaining list, making the
recursion structural so that it evaluates inside the kernel. -/
def findFlagsAux : Nat → List Char → List (List Char)
  | 0, _ => []
  | fuel + 1, '-' :: 'D' :: cs =>
    let t := cs.takeWhile isFlagChar
    if t.isEmpty then findFlagsAux fuel cs
    else t :: findFlagsAux fuel (cs.dropWhile isFlagChar)
  | fuel + 1, _ :: cs => findFlagsAux fuel cs
  | _ + 1, [] => []

/-- The scan of `findFlagsAux` started with exact fuel. -/
def findFlags (l : List Char) : List (List Char) :=
  findFlagsAux l.length l

/-- Model of `get_flags(cxxflags)` (auto_build.py lines 63-64): every occurrence of
`-D<IDENTIFIER>` in order of appearance, duplicates retained (that is what
`re.findall` returns). -/
def get_flags (cxxflags : String) : List String :=
  (findFlags cxxflags.toList).map (fun t => String.mk t)

/-- Helper for `strStartsWith`: does the first list lead the second one? -/
def strStartsWithAux : List Char → List Char → Bool
  | [], _ => true
  | _ :: _, [] => false
  | p :: ps, c :: cs => p == c && strStartsWithAux ps cs

/-- Python `s.startswith(pat)`, character by character. -/
def strStartsWith (s pat : String) : Bool :=
  strStartsWithAux pat.toList s.toList

/-- Model of `get_module_dir(flag)` (auto_build.py lines 42-47).  The default branch
embeds Python `flag.lower().replace('_', '')` as lowercasing every
character and filtering out underscores. -/
def get_module_dir (flag : String) : String :=
  if strStartsWith flag "CUSTOM_MUTATOR_" then "custommutator"
  else if flag = "BITCOIN_CORE" then "modules/bitcoin"
  else "modules/" ++ String.mk ((flag.toList.map Char.toLower).filter (fun c => !(c == '_')))

/-- Model of `needs_rust_nightly(flag)` (auto_build.py lines 49-56): membership in the
five-element set literal. -/
def needs_rust_nightly (flag : String) : Bool :=
  decide (flag = "RUST_BITCOIN" ∨ flag = "RUST_MINISCRIPT" ∨ flag = "LDK" ∨
    flag = "TINY_MINISCRIPT" ∨ flag = "RUSTBITCOINKERNEL")

/-- Model of `should_build_sequentially(flag)` (auto_build.py lines 58-61). -/
def should_build_sequentially (flag : String) : Bool :=
  decide (flag = "SECP256K1" ∨ flag = "BITCOINJ" ∨ flag = "LIGHTNING_KMP") ||
    strStartsWith flag "CUSTOM_MUTATOR_"

/-- One observable step of the script: a line printed to stdout (`msg`), a
line printed to stderr by `die` (`err`), an external command spawned in a
working directory (`exec`, `none` = the top-level directory), or the flush
of a failed quiet command's captured output (`flushOutput`). -/
inductive Event : Type where
  | msg (s : String)
  | err (s : String)
  | exec (cwd : Option String) (cmd : String)
  | flushOutput (cmd : String)
deriving DecidableEq, Repr

/-- The external world: which commands succeed in which directory (`none` =
top level), which directories exist, and what `Path("modules").glob("*/")`
yields for `full_clean`. -/
structure World : Type where
  cmdOk : Option String → String → Bool
  isDir : String → Bool
  moduleSubdirs : List String

/-- The `loc` prefix printed by `run` (auto_build.py line 16). -/
def locOf : Option String → String
  | some d => "(cd " ++ d ++ ") "
  | none => ""

/-- Model of `die(msg)` (auto_build.py lines 10-12) prints `Error: {msg}` to stderr. -/
def dieEvent (msg : String) : Event :=
  Event.err ("Error: " ++ msg)

/-- Model of `run(cmd, cwd, quiet)` (auto_build.py lines 14-34): optionally announce
the command, spawn it, and on a non-zero exit flush captured output (quiet
mode only) and `die`.  The Bool result is whether the command succeeded,
i.e. whether control continues past the call in the owning thread. -/
def runCmd (w : World) (cwd : Option String) (cmd : String) (quiet : Bool) :
    List Event × Bool :=
  let pre : List Event := if quiet then [] else [Event.msg (locOf cwd ++ cmd)]
  if w.cmdOk cwd cmd then (pre ++ [Event.exec cwd cmd], true)
  else (pre ++ [Event.exec cwd cmd] ++ (if quiet then [Event.flushOutput cmd] else []) ++
    [dieEvent ("Command failed: " ++ cmd)], false)

/-- Model of `execute_in_dir(dirpath, command, quiet)` (auto_build.py lines 36-40):
a missing directory is its own fatal condition, otherwise run the command
there. -/
def execute_in_dir (w : World) (dirpath command : String) (quiet : Bool) :
    List Event × Bool :=
  if w.isDir dirpath then runCmd w (some dirpath) command quiet
  else ([dieEvent ("Directory " ++ dirpath ++ " does not exist")], false)

/-- Fail-fast loop running `make clean` in each directory in turn, stopping
at the first failing `execute_in_dir` (the loop bodies of `full_clean` and
`clean_by_flags`, auto_build.py lines 68-70 and 74-75). -/
def cleanDirs (w : World) : List String → List Event × Bool
  | [] => ([], true)
  | d :: ds =>
    let r := execute_in_dir w d "make clean" false
    if r.2 then
      let rest := cleanDirs w ds
      (r.1 ++ rest.1, rest.2)
    else (r.1, false)

/-- Model of `full_clean()` (auto_build.py lines 66-70): clean every subdirectory of
`modules/`, then `custommutator`; the first failure aborts the run. -/
def full_clean (w : World) : List Event × Bool :=
  let r := cleanDirs w w.moduleSubdirs
  if r.2 then
    let r2 := execute_in_dir w "custommutator" "make clean" false
    (Event.msg "Performing full clean..." :: (r.1 ++ r2.1), r2.2)
  else (Event.msg "Performing full clean..." :: r.1, false)

/-- Model of `clean_by_flags(flags)` (auto_build.py lines 72-75). -/
def clean_by_flags (w : World) (flags : List String) : List Event × Bool :=
  let r := cleanDirs w (flags.map get_module_dir)
  (Event.msg ("Cleaning modules: " ++ String.intercalate " " flags) :: r.1, r.2)

/-- Model of `build_module(flag, quiet)` (auto_build.py lines 77-93): resolve the
directory, announce when verbose, then run either the pinned-toolchain
sequence `rustup default nightly && make cargo && make` (the shell `&&`
chain aborts at the first failing step) or the generic `make`. -/
def build_module (w : World) (flag : String) (quiet : Bool) :
    List Event × Bool :=
  let dirpath := get_module_dir flag
  let pre : List Event := if quiet then [] else [Event.msg ("Building module: " ++ flag)]
  let r :=
    if needs_rust_nightly flag then
      execute_in_dir w dirpath "rustup default nightly && make cargo && make" quiet
    else
      execute_in_dir w dirpath "make" quiet
  let post : List Event :=
    if r.2 && quiet then [Event.msg ("✓ " ++ flag ++ " built successfully")] else []
  (pre ++ r.1 ++ post, r.2)

/-- Body of `run_sequential` (auto_build.py lines 140-143): build the
sequential modules strictly in order.  A failing `build_module` calls
`die`, whose `SystemExit` aborts the loop (no later module is attempted)
but is silently swallowed by `threading`, so only this thread stops; the
result records the events, whether the lane completed without failure, and
which modules were attempted. -/
def runSeqLane (w : World) (quiet : Bool) : List String → List Event × Bool × List String
  | [] => ([], true, [])
  | f :: fs =>
    let r := build_module w f quiet
    if r.2 then
      let rest := runSeqLane w quiet fs
      (r.1 ++ rest.1, rest.2.1, f :: rest.2.2)
    else (r.1, false, [f])

/-- The sequential lane of the partition (auto_build.py line 132), in
original order. -/
def sequentialGroup (flags : List String) : List String :=
  flags.filter (fun f => should_build_sequentially f)

/-- The parallel pool of the partition (auto_build.py line 133). -/
def parallelGroup (flags : List String) : List String :=
  flags.filter (fun f => !(should_build_sequentially f))

/-- Result of the scheduling phase (auto_build.py lines 132-163).
`parallelWaited` are the parallel modules whose completion the process
waits for before exiting: every submitted build, because leaving the
`with ThreadPoolExecutor` block waits for all submitted work even while a
`SystemExit` propagates.  `explicitSeqJoin` records whether the
`seq_thread.join()` statement itself executes (it is skipped when the
escaping `SystemExit` aborts `main`, though interpreter shutdown still
joins the non-daemon thread). -/
structure PhaseResult : Type where
  seqEvents : List Event
  seqAttempted : List String
  parallelEvents : List (String × List Event × Bool)
  parallelWaited : List String
  explicitSeqJoin : Bool
  parallelFailed : Bool
deriving DecidableEq

/-- The scheduling phase of `main` (auto_build.py lines 132-163): partition,
run the sequential lane in a background thread (its failure is swallowed,
see `runSeqLane`), submit every parallel module to the pool, and observe
whether any parallel build failed.  A parallel failure re-raises
`SystemExit` from `fut.result()`, which `except Exception:` does not
catch, so the handler at lines 157-160 is bypassed and the explicit join
at line 163 is skipped. -/
def buildPhase (w : World) (quiet : Bool) (flags : List String) : PhaseResult :=
  let sequential := sequentialGroup flags
  let parallel := parallelGroup flags
  let seqr :=
    if sequential.isEmpty then ([], true, [])
    else
      let r := runSeqLane w quiet sequential
      (Event.msg ("Starting sequential module builds:" ++ String.intercalate " " sequential)
        :: r.1, r.2.1, r.2.2)
  let outcomes := parallel.map (fun f => (f, build_module w f quiet))
  let anyFail := !parallel.isEmpty && outcomes.any (fun x => !x.2.2)
  { seqEvents := seqr.1
    seqAttempted := seqr.2.2
    parallelEvents := outcomes
    parallelWaited := parallel
    explicitSeqJoin := !anyFail && !sequential.isEmpty
    parallelFailed := anyFail }

/-- The environment variables `main` reads: `CXXFLAGS`, `CLEAN_BUILD`
(`none` = unset), and the already-parsed integers `PARALLEL_JOBS` and
`ONLY_MODULES` (both default `0`). -/
structure Env : Type where
  cxxflags : Option String
  clean_build : Option String
  parallel_jobs : Nat
  only_modules : Nat

/-- Aggregate observable outcome of one invocation of `main`.
`mainEvents` is the main thread's ordered activity, `seqEvents` the
sequential thread's; `parallelEvents` pairs each parallel module with its
build activity and outcome.  `seqThreadAwaited` states that the process
does not exit while the sequential thread is still running (true on every
path: either the explicit join runs, or interpreter shutdown joins the
non-daemon thread). -/
structure RunTrace : Type where
  exitCode : Nat
  mainEvents : List Event
  seqEvents : List Event
  seqAttempted : List String
  parallelEvents : List (String × List Event × Bool)
  parallelWaited : List String
  explicitSeqJoin : Bool
  seqThreadAwaited : Bool
deriving DecidableEq

/-- A trace on which no module build was ever started. -/
def noBuild (code : Nat) (ev : List Event) : RunTrace :=
  { exitCode := code, mainEvents := ev, seqEvents := [], seqAttempted := []
    parallelEvents := [], parallelWaited := [], explicitSeqJoin := false
    seqThreadAwaited := true }

/-- Python `str.split()` (no argument): split on runs of whitespace,
dropping empty pieces; helper for the explicit-list `CLEAN_BUILD` form. -/
def splitWsAux : List Char → List Char → List String
  | [], acc => if acc.isEmpty then [] else [String.mk acc.reverse]
  | c :: cs, acc =>
    if c.isWhitespace then
      (if acc.isEmpty then [] else [String.mk acc.reverse]) ++ splitWsAux cs []
    else splitWsAux cs (c :: acc)

/-- Python `clean_build.split()` (auto_build.py line 112). -/
def splitWs (s : String) : List String :=
  splitWsAux s.toList []

/-- The `CLEAN_BUILD` dispatch of `main` (auto_build.py lines 104-114):
unset or empty skips cleaning, `FULL` runs `full_clean`, `CLEAN` cleans the
modules about to be built, anything else is a whitespace-separated explicit
list of identifiers to clean. -/
def cleanModeStep (w : World) (clean_build : Option String) (cxxflags : String) :
    List Event × Bool :=
  match clean_build with
  | none => ([Event.msg "No CLEAN_BUILD option specified. Skipping clean step."], true)
  | some cb =>
    if cb = "" then ([Event.msg "No CLEAN_BUILD option specified. Skipping clean step."], true)
    else if cb = "FULL" then full_clean w
    else if cb = "CLEAN" then clean_by_flags w (get_flags cxxflags)
    else clean_by_flags w (splitWs cb)

/-- The `die` message for a missing `CXXFLAGS` (auto_build.py line 99). -/
def cxxflagsMsg : String :=
  "CXXFLAGS not defined. Example: CXXFLAGS=\"-DLDK -DLND\" ./auto_build.py"

/-- Model of `main` from the `CLEAN_BUILD` dispatch onward (auto_build.py lines
104-172), assuming the initial top-level `make clean` succeeded;
`mainEvents` here excludes the events the caller already produced. -/
def afterTopClean (env : Env) (w : World) (cxxflags : String) : RunTrace :=
  let ms := cleanModeStep w env.clean_build cxxflags
  if ms.2 then
    let flags := get_flags cxxflags
    if flags.isEmpty then
      noBuild 0 (ms.1 ++ [Event.msg "No modules to build."])
    else
      let quiet : Bool := env.parallel_jobs != 1
      let evC : List Event :=
        if env.parallel_jobs = 1 then
          [Event.msg ("Compiling selected modules sequentially with CXXFLAGS=" ++
            cxxflags ++ "...")]
        else
          [Event.msg ("Compiling selected modules in parallel (jobs=" ++
            toString env.parallel_jobs ++ ") with CXXFLAGS=" ++ cxxflags ++ "...")]
      let ph := buildPhase w quiet flags
      if ph.parallelFailed then
        { exitCode := 1, mainEvents := ms.1 ++ evC, seqEvents := ph.seqEvents
          seqAttempted := ph.seqAttempted, parallelEvents := ph.parallelEvents
          parallelWaited := ph.parallelWaited, explicitSeqJoin := false
          seqThreadAwaited := true }
      else
        let ev1 := ms.1 ++ evC ++ [Event.msg "All module builds completed successfully!"]
        if env.only_modules = 0 then
          let rm := runCmd w none "make" false
          if rm.2 then
            { exitCode := 0
              mainEvents := ev1 ++ [Event.msg "Compiling the main project in the root..."] ++
                rm.1 ++ [Event.msg "Build completed successfully!"]
              seqEvents := ph.seqEvents, seqAttempted := ph.seqAttempted
              parallelEvents := ph.parallelEvents, parallelWaited := ph.parallelWaited
              explicitSeqJoin := ph.explicitSeqJoin, seqThreadAwaited := true }
          else
            { exitCode := 1
              mainEvents := ev1 ++ [Event.msg "Compiling the main project in the root..."] ++ rm.1
              seqEvents := ph.seqEvents, seqAttempted := ph.seqAttempted
              parallelEvents := ph.parallelEvents, parallelWaited := ph.parallelWaited
              explicitSeqJoin := ph.explicitSeqJoin, seqThreadAwaited := true }
        else
          { exitCode := 0
            mainEvents := ev1 ++ [Event.msg "Build completed successfully!"]
            seqEvents := ph.seqEvents, seqAttempted := ph.seqAttempted
            parallelEvents := ph.parallelEvents, parallelWaited := ph.parallelWaited
            explicitSeqJoin := ph.explicitSeqJoin, seqThreadAwaited := true }
  else noBuild 1 ms.1

/-- Model of `main()` (auto_build.py lines 96-172): check `CXXFLAGS` (Python
falsiness: unset or empty is fatal), unconditionally run `make clean` at
the top level, then continue with `afterTopClean`. -/
def mainRun (env : Env) (w : World) : RunTrace :=
  match env.cxxflags with
  | none => noBuild 1 [dieEvent cxxflagsMsg]
  | some cxxflags =>
    if cxxflags = "" then noBuild 1 [dieEvent cxxflagsMsg]
    else
      let rc := runCmd w none "make clean" false
      let rest := if rc.2 then afterTopClean env w cxxflags else noBuild 1 []
      { rest with mainEvents :=
          (Event.msg "Cleaning previous builds..." :: rc.1) ++ rest.mainEvents }

/-- A world where every command succeeds and every directory exists. -/
def wAllOk : World :=
  { cmdOk := fun _ _ => true, isDir := fun _ => true, moduleSubdirs := [] }

/-- A world where exactly `make` in `modules/lnd` fails (the LND parallel
build), everything else succeeds. -/
def wLndFails : World :=
  { cmdOk := fun cwd cmd => !(cwd == some "modules/lnd" && cmd == "make")
    isDir := fun _ => true, moduleSubdirs := [] }

/-- A world where exactly `make` in `modules/secp256k1` fails (the
SECP256K1 sequential build), everything else succeeds. -/
def wSecpFails : World :=
  { cmdOk := fun cwd cmd => !(cwd == some "modules/secp256k1" && cmd == "make")
    isDir := fun _ => true, moduleSubdirs := [] }

/-- A world where `make clean` fails in every module directory but succeeds
at the top level, and every directory exists. -/
def wCleanFails : World :=
  { cmdOk := fun cwd cmd => !(cmd == "make clean" && cwd != none)
    isDir := fun _ => true, moduleSubdirs := ["modules/bitcoin"] }

/-- A world where no directory exists. -/
def wNoDirs : World :=
  { cmdOk := fun _ _ => true, isDir := fun _ => false, moduleSubdirs := ["modules/bitcoin"] }

/-- Scenario for the parallel-failure claims: LND and LDK in the parallel
pool, SECP256K1 in the sequential lane, two parallel jobs. -/
def envC1 : Env :=
  { cxxflags := some "-DLND -DLDK -DSECP256K1", clean_build := none
    parallel_jobs := 2, only_modules := 0 }

/-- Scenario for the sequential-failure claim: two sequential modules, no
parallel ones, final aggregate build skipped. -/
def envC2 : Env :=
  { cxxflags := some "-DSECP256K1 -DBITCOINJ", clean_build := none
    parallel_jobs := 0, only_modules := 1 }

/-- Scenario for the zero-matching-tokens claims: a non-empty `CXXFLAGS`
with no `-D<IDENTIFIER>` token. -/
def envC4 : Env :=
  { cxxflags := some "-O2", clean_build := none, parallel_jobs := 0, only_modules := 0 }

/-- Scenario for the clean-failure claim: a full clean requested while the
module clean commands fail. -/
def envC8 : Env :=
  { cxxflags := some "-DLDK", clean_build := some "FULL", parallel_jobs := 0
    only_modules := 0 }

/-- Scenario with `CXXFLAGS` unset. -/
def envNoCxx : Env :=
  { cxxflags := none, clean_build := none, parallel_jobs := 0, only_modules := 0 }

/-- Scenario with `CXXFLAGS` set to the empty string. -/
def envEmptyCxx : Env :=
  { cxxflags := some "", clean_build := none, parallel_jobs := 0, only_modules := 0 }

/-- C3 counterexample: `re.findall` does not collapse duplicates, so the
input `-DLDK -DLND -DLDK` does not yield `[LDK, LND]` as the claim states. -/
theorem C3_counterexample : get_flags "-DLDK -DLND -DLDK" ≠ ["LDK", "LND"] := by
  decide

/-- C3 (amended): the Flag Parser returns every matched identifier in order
of appearance, retaining duplicates and ignoring non-matching tokens; the
input `-DLDK -DLND -DLDK` yields `[LDK, LND, LDK]`. -/
theorem C3_flags_in_order_with_duplicates :
    get_flags "-DLDK -DLND -DLDK" = ["LDK", "LND", "LDK"] ∧
    get_flags "gcc -O2 -DLDK -Wall -DLND" = ["LDK", "LND"] := by
  decide

/-- C7: module-to-directory resolution is a total function of the
identifier text: `BITCOIN_CORE` maps to the fixed special directory, any
identifier with the `CUSTOM_MUTATOR_` prefix maps to the shared
custom-mutator directory, and every other identifier maps to its
lowercased, underscore-stripped name under the `modules/` root. -/
theorem C7_module_resolution :
    get_module_dir "BITCOIN_CORE" = "modules/bitcoin" ∧
    get_module_dir "CUSTOM_MUTATOR_FOO" = "custommutator" ∧
    (∀ flag, strStartsWith flag "CUSTOM_MUTATOR_" = true →
      get_module_dir flag = "custommutator") ∧
    (∀ flag, strStartsWith flag "CUSTOM_MUTATOR_" = false → flag ≠ "BITCOIN_CORE" →
      get_module_dir flag =
        "modules/" ++ String.mk ((flag.toList.map Char.toLower).filter (fun c => !(c == '_')))) := by
  refine ⟨by decide, by decide, ?_, ?_⟩
  · intro flag h
    simp [get_module_dir, h]
  · intro flag h hne
    simp [get_module_dir, h, hne]

/-- Witness for C7 at concrete identifiers. -/
theorem C7_module_resolution_witness :
    get_module_dir "CUSTOM_MUTATOR_XYZ" = "custommutator" ∧
    get_module_dir "LND" = "modules/lnd" := by
  constructor
  · exact C7_module_resolution.2.2.1 "CUSTOM_MUTATOR_XYZ" (by decide)
  · exact (C7_module_resolution.2.2.2 "LND" (by decide) (by decide)).trans (by decide)

/-- C2 (code bug): a failing module in the sequential group aborts the
remaining sequential builds and prints its error, but the `SystemExit`
raised by `die` inside the background thread is silently ignored by
`threading`, so the run still reports overall success and exits 0 instead
of terminating with a failure result. -/
theorem C2_sequential_failure_swallowed :
    (mainRun envC2 wSecpFails).exitCode = 0 ∧
    (mainRun envC2 wSecpFails).seqAttempted = ["SECP256K1"] ∧
    dieEvent "Command failed: make" ∈ (mainRun envC2 wSecpFails).seqEvents ∧
    (mainRun envC2 wSecpFails).explicitSeqJoin = true ∧
    Event.msg "All module builds completed successfully!" ∈ (mainRun envC2 wSecpFails).mainEvents ∧
    Event.msg "Build completed successfully!" ∈ (mainRun envC2 wSecpFails).mainEvents := by
  decide

/-- C4 counterexample: a non-empty configuration string with zero matching
`-D<IDENTIFIER>` tokens is not fatal: the run prints `No modules to build.`
and exits 0, contradicting the claimed non-zero exit. -/
theorem C4_counterexample :
    (mainRun envC4 wAllOk).exitCode = 0 ∧
    Event.msg "No modules to build." ∈ (mainRun envC4 wAllOk).mainEvents := by
  decide

/-- Helper: with `CXXFLAGS` set to a non-empty string and the top-level
`make clean` succeeding, `main` is the two initial prints and the clean
spawn, followed by everything `afterTopClean` does. -/
theorem mainRun_after_clean (env : Env) (w : World) (c : String)
    (hc : env.cxxflags = some c) (hne : c ≠ "")
    (hok : w.cmdOk none "make clean" = true) :
    mainRun env w =
      { afterTopClean env w c with
        mainEvents := Event.msg "Cleaning previous builds..." ::
          Event.msg "make clean" :: Event.exec none "make clean" ::
          (afterTopClean env w c).mainEvents } := by
  have hl : ("" : String) ++ "make clean" = "make clean" := rfl
  simp only [mainRun, hc]
  rw [if_neg hne]
  simp [runCmd, hok, locOf, hl]

/-- C5: the scheduler partition places an identifier in the sequential lane
exactly when it is one of SECP256K1, BITCOINJ, LIGHTNING_KMP or has the
CUSTOM_MUTATOR_ prefix (keeping original order, being a sublist), all the
others go to the parallel pool, and a forced-sequential identifier is
never in the parallel pool. -/
theorem C5_partition (flags : List String) (f : String) :
    (f ∈ sequentialGroup flags ↔ f ∈ flags ∧
      (f = "SECP256K1" ∨ f = "BITCOINJ" ∨ f = "LIGHTNING_KMP" ∨
        strStartsWith f "CUSTOM_MUTATOR_" = true)) ∧
    (f ∈ parallelGroup flags ↔ f ∈ flags ∧
      ¬(f = "SECP256K1" ∨ f = "BITCOINJ" ∨ f = "LIGHTNING_KMP" ∨
        strStartsWith f "CUSTOM_MUTATOR_" = true)) ∧
    (sequentialGroup flags).Sublist flags ∧
    (should_build_sequentially f = true → f ∉ parallelGroup flags) := by
  have hs : ∀ g : String, should_build_sequentially g = true ↔
      (g = "SECP256K1" ∨ g = "BITCOINJ" ∨ g = "LIGHTNING_KMP" ∨
        strStartsWith g "CUSTOM_MUTATOR_" = true) := by
    intro g
    simp [should_build_sequentially, or_assoc]
  refine ⟨?_, ?_, List.filter_sublist _, ?_⟩
  · simp [sequentialGroup, List.mem_filter, hs]
  · constructor
    · intro hmem
      have h1 := List.mem_filter.mp hmem
      refine ⟨h1.1, fun hd => ?_⟩
      have h2 := (hs f).mpr hd
      simp [h2] at h1
    · intro h
      refine List.mem_filter.mpr ⟨h.1, ?_⟩
      have h2 : should_build_sequentially f = false := by
        cases hb : should_build_sequentially f
        · rfl
        · exact absurd ((hs f).mp hb) h.2
      simp [h2]
  · intro h hmem
    have h2 := (List.mem_filter.mp hmem).2
    simp [h] at h2

/-- Witness for C5: SECP256K1 is forced sequential, hence kept out of the
parallel pool of a concrete request. -/
theorem C5_partition_witness : "SECP256K1" ∉ parallelGroup ["LDK", "SECP256K1"] :=
  (C5_partition ["LDK", "SECP256K1"] "SECP256K1").2.2.2 (by decide)

/-- C6: a module build executes the pinned-toolchain command
`rustup default nightly && make cargo && make` (whose shell `&&` chain
aborts at the first failing step) exactly when the identifier is one of
RUST_BITCOIN, RUST_MINISCRIPT, LDK, TINY_MINISCRIPT, RUSTBITCOINKERNEL;
every other identifier gets only the generic `make`. -/
theorem C6_pinned_toolchain (w : World) (flag : String) (quiet : Bool)
    (hdir : w.isDir (get_module_dir flag) = true) :
    (needs_rust_nightly flag = true ↔
      (flag = "RUST_BITCOIN" ∨ flag = "RUST_MINISCRIPT" ∨ flag = "LDK" ∨
        flag = "TINY_MINISCRIPT" ∨ flag = "RUSTBITCOINKERNEL")) ∧
    (Event.exec (some (get_module_dir flag)) "rustup default nightly && make cargo && make" ∈
      (build_module w flag quiet).1 ↔ needs_rust_nightly flag = true) ∧
    (Event.exec (some (get_module_dir flag)) "make" ∈ (build_module w flag quiet).1 ↔
      needs_rust_nightly flag = false) := by
  have hne : ("rustup default nightly && make cargo && make" : String) ≠ "make" := by decide
  refine ⟨by simp [needs_rust_nightly], ?_, ?_⟩ <;>
  · cases hn : needs_rust_nightly flag <;>
      cases hq : quiet <;>
        cases hc1 : w.cmdOk (some (get_module_dir flag))
            "rustup default nightly && make cargo && make" <;>
          cases hc2 : w.cmdOk (some (get_module_dir flag)) "make" <;>
            simp [build_module, execute_in_dir, runCmd, dieEvent, locOf,
              hn, hdir, hc1, hc2, hne, hne.symm]

/-- Witness for C6 at concrete identifiers. -/
theorem C6_pinned_toolchain_witness :
    wAllOk.isDir (get_module_dir "LDK") = true ∧
    Event.exec (some (get_module_dir "LDK")) "rustup default nightly && make cargo && make" ∈
      (build_module wAllOk "LDK" true).1 ∧
    Event.exec (some (get_module_dir "LND")) "make" ∈ (build_module wAllOk "LND" true).1 := by
  refine ⟨rfl, ?_, ?_⟩
  · exact (C6_pinned_toolchain wAllOk "LDK" true rfl).2.1.mpr (by decide)
  · exact (C6_pinned_toolchain wAllOk "LND" true rfl).2.2.mpr (by decide)

/-- C1 counterexample: with LND failing in the parallel pool while LDK is
also submitted, the run is reported failed (exit 1) but the LDK build is
still waited on during executor shutdown, so the claim that further
parallel results are no longer awaited is false at this input. -/
theorem C1_counterexample :
    ¬ ((mainRun envC1 wLndFails).exitCode = 1 ∧
       "LDK" ∉ (mainRun envC1 wLndFails).parallelWaited) := by
  decide

/-- C1 (amended): when a failure is observed among the parallel builds, the
run is reported failed (exit 1) and the sequential thread is still awaited
before the process exits; however every submitted parallel build runs to
completion and is waited on during `ThreadPoolExecutor` shutdown (rather
than no longer being awaited), and the explicit `seq_thread.join()` is
skipped, the await happening at interpreter shutdown instead. -/
theorem C1_parallel_failure (env : Env) (w : World) (c : String)
    (hc : env.cxxflags = some c) (hne : c ≠ "")
    (hok : w.cmdOk none "make clean" = true)
    (hcb : env.clean_build = none)
    (hnf : (get_flags c).isEmpty = false)
    (hfail : (buildPhase w (env.parallel_jobs != 1) (get_flags c)).parallelFailed = true) :
    (mainRun env w).exitCode = 1 ∧
    (mainRun env w).parallelWaited = parallelGroup (get_flags c) ∧
    (mainRun env w).parallelEvents =
      (parallelGroup (get_flags c)).map
        (fun f => (f, build_module w f (env.parallel_jobs != 1))) ∧
    (mainRun env w).seqThreadAwaited = true ∧
    (mainRun env w).explicitSeqJoin = false ∧
    (mainRun env w).seqAttempted =
      (buildPhase w (env.parallel_jobs != 1) (get_flags c)).seqAttempted := by
  rw [mainRun_after_clean env w c hc hne hok]
  simp only [afterTopClean, cleanModeStep, hcb, hnf, hfail]
  simp [buildPhase]

/-- Witness for C1 at the concrete failing-LND scenario. -/
theorem C1_parallel_failure_witness :
    (buildPhase wLndFails (envC1.parallel_jobs != 1)
      (get_flags "-DLND -DLDK -DSECP256K1")).parallelFailed = true ∧
    (mainRun envC1 wLndFails).exitCode = 1 ∧
    (mainRun envC1 wLndFails).explicitSeqJoin = false := by
  have h := C1_parallel_failure envC1 wLndFails "-DLND -DLDK -DSECP256K1"
    rfl (by decide) rfl rfl (by decide) (by decide)
  exact ⟨by decide, h.1, h.2.2.2.2.1⟩

/-- C4 (amended): an unset or empty configuration string is fatal with the
`CXXFLAGS not defined` message, while a non-empty configuration with zero
matching tokens leads (after a successful top-level clean, with no clean
mode requested) to a successful exit that only prints
`No modules to build.`. -/
theorem C4_config_error_behavior :
    (∀ (env : Env) (w : World), (env.cxxflags = none ∨ env.cxxflags = some "") →
      (mainRun env w).exitCode = 1 ∧ dieEvent cxxflagsMsg ∈ (mainRun env w).mainEvents) ∧
    (∀ (env : Env) (w : World) (c : String), env.cxxflags = some c → c ≠ "" →
      w.cmdOk none "make clean" = true → env.clean_build = none → get_flags c = [] →
      (mainRun env w).exitCode = 0 ∧
      Event.msg "No modules to build." ∈ (mainRun env w).mainEvents) := by
  constructor
  · intro env w h
    rcases h with h | h <;> simp [mainRun, h, noBuild]
  · intro env w c hc hne hok hcb hfl
    rw [mainRun_after_clean env w c hc hne hok]
    simp [afterTopClean, cleanModeStep, hcb, hfl, noBuild]

/-- Witness for C4 at concrete environments. -/
theorem C4_config_error_behavior_witness :
    (mainRun envNoCxx wAllOk).exitCode = 1 ∧
    (mainRun envEmptyCxx wAllOk).exitCode = 1 ∧
    (mainRun envC4 wAllOk).exitCode = 0 :=
  ⟨(C4_config_error_behavior.1 envNoCxx wAllOk (Or.inl rfl)).1,
   (C4_config_error_behavior.1 envEmptyCxx wAllOk (Or.inr rfl)).1,
   (C4_config_error_behavior.2 envC4 wAllOk "-O2" rfl (by decide) rfl rfl (by decide)).1⟩

/-- C8: a missing target directory and a failed clean command are distinct
fatal conditions with their own messages, and in both full and selective
clean the first failing clean step stops everything: no later directory is
cleaned and no module is subsequently built. -/
theorem C8_clean_failfast :
    (∀ (w : World) (d : String), w.isDir d = false →
      execute_in_dir w d "make clean" false =
        ([dieEvent ("Directory " ++ d ++ " does not exist")], false)) ∧
    (∀ (w : World) (d : String), w.isDir d = true →
      w.cmdOk (some d) "make clean" = false →
      (execute_in_dir w d "make clean" false).2 = false ∧
      dieEvent "Command failed: make clean" ∈ (execute_in_dir w d "make clean" false).1) ∧
    (∀ (w : World) (d : String) (ds : List String),
      (execute_in_dir w d "make clean" false).2 = false →
      cleanDirs w (d :: ds) = ((execute_in_dir w d "make clean" false).1, false)) ∧
    (∀ w : World, (cleanDirs w w.moduleSubdirs).2 = false →
      full_clean w =
        (Event.msg "Performing full clean..." :: (cleanDirs w w.moduleSubdirs).1, false)) ∧
    (∀ (w : World) (fl : String) (fs : List String),
      (execute_in_dir w (get_module_dir fl) "make clean" false).2 = false →
      (clean_by_flags w (fl :: fs)).2 = false) ∧
    (∀ (env : Env) (w : World) (c : String), env.cxxflags = some c → c ≠ "" →
      w.cmdOk none "make clean" = true → env.clean_build = some "FULL" →
      (full_clean w).2 = false →
      (mainRun env w).exitCode = 1 ∧ (mainRun env w).seqAttempted = [] ∧
      (mainRun env w).parallelEvents = [] ∧ (mainRun env w).seqEvents = []) := by
  refine ⟨?_, ?_, ?_, ?_, ?_, ?_⟩
  · intro w d h
    simp [execute_in_dir, h]
  · intro w d h hcmd
    simp [execute_in_dir, runCmd, h, hcmd]
  · intro w d ds h
    simp [cleanDirs, h]
  · intro w h
    simp [full_clean, h]
  · intro w fl fs h
    simp [clean_by_flags, cleanDirs, h]
  · intro env w c hc hne hok hcb hfc
    rw [mainRun_after_clean env w c hc hne hok]
    have h1 : ("FULL" : String) ≠ "" := by decide
    simp [afterTopClean, cleanModeStep, hcb, h1, hfc, noBuild]

/-- Witness for C8 at concrete worlds where cleaning fails. -/
theorem C8_clean_failfast_witness :
    execute_in_dir wNoDirs "modules/ldk" "make clean" false =
      ([dieEvent ("Directory " ++ "modules/ldk" ++ " does not exist")], false) ∧
    dieEvent "Command failed: make clean" ∈
      (execute_in_dir wCleanFails "modules/ldk" "make clean" false).1 ∧
    cleanDirs wCleanFails ["modules/ldk", "modules/lnd"] =
      ((execute_in_dir wCleanFails "modules/ldk" "make clean" false).1, false) ∧
    (mainRun envC8 wCleanFails).exitCode = 1 ∧
    (mainRun envC8 wCleanFails).seqAttempted = [] := by
  refine ⟨?_, ?_, ?_, ?_, ?_⟩
  · exact C8_clean_failfast.1 wNoDirs "modules/ldk" rfl
  · exact (C8_clean_failfast.2.1 wCleanFails "modules/ldk" rfl rfl).2
  · exact C8_clean_failfast.2.2.1 wCleanFails "modules/ldk" ["modules/lnd"] (by decide)
  · exact (C8_clean_failfast.2.2.2.2.2 envC8 wCleanFails "-DLDK" rfl (by decide) rfl rfl
      (by decide)).1
  · exact (C8_clean_failfast.2.2.2.2.2 envC8 wCleanFails "-DLDK" rfl (by decide) rfl rfl
      (by decide)).2.1

/-- C9: with any non-empty configuration string, the very first activity of
the run is printing the cleaning banner and running `make clean` at the
top level, before any clean-mode handling or module build, even when no
clean mode is requested. -/
theorem C9_unconditional_top_clean (env : Env) (w : World) (c : String)
    (hc : env.cxxflags = some c) (hne : c ≠ "") :
    ∃ rest, (mainRun env w).mainEvents =
      Event.msg "Cleaning previous builds..." :: Event.msg "make clean" ::
        Event.exec none "make clean" :: rest := by
  have hl : ("" : String) ++ "make clean" = "make clean" := rfl
  cases hok : w.cmdOk none "make clean" <;>
  · simp only [mainRun, hc]
    rw [if_neg hne]
    simp [runCmd, locOf, hok, hl]

/-- Witness for C9 at a concrete environment with no clean mode set. -/
theorem C9_unconditional_top_clean_witness :
    ∃ rest, (mainRun envC4 wAllOk).mainEvents =
      Event.msg "Cleaning previous builds..." :: Event.msg "make clean" ::
        Event.exec none "make clean" :: rest :=
  C9_unconditional_top_clean envC4 wAllOk "-O2" rfl (by decide)

/-- C10: a non-empty configuration string yielding zero module identifiers
makes the run exit 0 right after the clean phase: no module build is
started and the final aggregate `make` in the root is not run, whatever
the modules-only toggle is. -/
theorem C10_no_modules_success (env : Env) (w : World) (c : String)
    (hc : env.cxxflags = some c) (hne : c ≠ "")
    (hok : w.cmdOk none "make clean" = true) (hcb : env.clean_build = none)
    (hfl : get_flags c = []) :
    (mainRun env w).exitCode = 0 ∧
    (mainRun env w).seqAttempted = [] ∧
    (mainRun env w).parallelEvents = [] ∧
    Event.exec none "make" ∉ (mainRun env w).mainEvents ∧
    Event.msg "No modules to build." ∈ (mainRun env w).mainEvents := by
  have h1 : ("make" : String) ≠ "make clean" := by decide
  rw [mainRun_after_clean env w c hc hne hok]
  simp [afterTopClean, cleanModeStep, hcb, hfl, noBuild, h1]

/-- Witness for C10 at a concrete environment, with the modules-only toggle
off so that the skipped final aggregate build is observable. -/
theorem C10_no_modules_success_witness :
    (mainRun envC4 wAllOk).exitCode = 0 ∧
    Event.exec none "make" ∉ (mainRun envC4 wAllOk).mainEvents := by
  have h := C10_no_modules_success envC4 wAllOk "-O2" rfl (by decide) rfl rfl (by decide)
  exact ⟨h.1, h.2.2.2.1⟩

end AutoBuild
